import Mathlib

/-!
Shallow embedding of `src/worker.js` (Cloudflare worker purging a BunnyCDN
pull-zone cache on a Ghost webhook) together with the legacy sequential
variant of the cleanup loop from the repository's older worker source.

Remote calls (purge, folder listing, per-folder delete) are modelled by
explicit outcome parameters (test doubles), and every dispatched remote
call is recorded in an event trace so that claims of the form "no CDN call
occurs" are statable.  JavaScript peculiarities that the control flow of
the source depends on are modelled explicitly:
  - `String.split` on the separators actually used (`", "` and `"="`),
  - `parseInt` on decimal input, with `NaN` rendered as `Option.none`
    (a `NaN` comparison such as `NaN > x` is false),
  - truthiness of the value returned by `verifySignature` (its catch
    block returns a `Response` object, which is truthy),
  - template-literal rendering of a `Response` object (`[object Response]`).
-/

namespace GhostWorker

/-- HTTP status constants from the top of worker.js. -/
def HTTP_OK : Nat := 200

/-- HTTP 403 constant from worker.js. -/
def HTTP_FORBIDDEN : Nat := 403

/-- HTTP 404 constant from worker.js. -/
def HTTP_NOT_FOUND : Nat := 404

/-- HTTP 500 constant from worker.js. -/
def HTTP_SERVER_ERROR : Nat := 500

/-- Model of a JavaScript `Response` value: status code plus text body. -/
structure Response where
  status : Nat
  body : String
deriving DecidableEq, Repr

/-- Model of `handleError` in worker.js: it logs and returns a 500 `Response`
whose body embeds the error message. -/
def handleError (msg : String) : Response :=
  ⟨HTTP_SERVER_ERROR, "An error occurred: " ++ msg⟩

/-- Environment (`self`) of the worker: each required variable is `some`
value when the binding exists in `self` and `none` when it is absent. -/
structure Env where
  GHOST_WEBHOOK_SECRET : Option String
  BUNNY_PULLZONE_ID : Option String
  BUNNY_API_KEY : Option String
  BUNNY_STORAGE_ZONE_HOSTNAME : Option String
  BUNNY_STORAGE_ZONE_NAME : Option String
  BUNNY_STORAGE_ZONE_PASSWORD : Option String
  MANUAL_TRIGGER_TOKEN : Option String
deriving DecidableEq, Repr

/-- Model of `validateEnvironmentVariables` in worker.js: walks
`REQUIRED_ENV_VARS` in order and throws on the first name not bound in
`self` (`varName in self` tests presence, not truthiness). -/
def validateEnvironmentVariables (env : Env) : Except String Unit :=
  if env.GHOST_WEBHOOK_SECRET.isNone then
    .error "Missing required environment variable: GHOST_WEBHOOK_SECRET"
  else if env.BUNNY_PULLZONE_ID.isNone then
    .error "Missing required environment variable: BUNNY_PULLZONE_ID"
  else if env.BUNNY_API_KEY.isNone then
    .error "Missing required environment variable: BUNNY_API_KEY"
  else if env.BUNNY_STORAGE_ZONE_HOSTNAME.isNone then
    .error "Missing required environment variable: BUNNY_STORAGE_ZONE_HOSTNAME"
  else if env.BUNNY_STORAGE_ZONE_NAME.isNone then
    .error "Missing required environment variable: BUNNY_STORAGE_ZONE_NAME"
  else if env.BUNNY_STORAGE_ZONE_PASSWORD.isNone then
    .error "Missing required environment variable: BUNNY_STORAGE_ZONE_PASSWORD"
  else if env.MANUAL_TRIGGER_TOKEN.isNone then
    .error "Missing required environment variable: MANUAL_TRIGGER_TOKEN"
  else
    .ok ()

/-- Split of a character list at every occurrence of a single separator
character; mirrors JavaScript `s.split(sep)` for a one-character `sep`
(always returns a non-empty list; empty pieces are kept). -/
def splitChar (sep : Char) : List Char → List (List Char)
  | [] => [[]]
  | c :: rest =>
    if c = sep then [] :: splitChar sep rest
    else
      match splitChar sep rest with
      | [] => [[c]]
      | g :: gs => (c :: g) :: gs

/-- Split of a character list at every occurrence of a two-character
separator `a b`; mirrors JavaScript `s.split(sep)` for a two-character
`sep` (scans left to right, non-overlapping matches). -/
def splitSep2 (a b : Char) : List Char → List (List Char)
  | [] => [[]]
  | [c] => [[c]]
  | c :: d :: rest =>
    if c = a ∧ d = b then [] :: splitSep2 a b rest
    else
      match splitSep2 a b (d :: rest) with
      | [] => [[c]]
      | g :: gs => (c :: g) :: gs

/-- Comma character, by code point. -/
def commaChar : Char := Char.ofNat 44

/-- Space character, by code point. -/
def spaceChar : Char := Char.ofNat 32

/-- Equals-sign character, by code point. -/
def eqChar : Char := Char.ofNat 61

/-- Model of the JavaScript call `header.split(", ")` used in
`verifySignature`. -/
def jsSplitCommaSpace (s : String) : List String :=
  (splitSep2 commaChar spaceChar s.toList).map (fun cs => String.mk cs)

/-- Model of the JavaScript call `part.split("=")` used in
`verifySignature`. -/
def jsSplitEq (s : String) : List String :=
  (splitChar eqChar s.toList).map (fun cs => String.mk cs)

/-- Numeric value of the decimal digits in `ds` (most significant first). -/
def digitsToNat (ds : List Char) : Nat :=
  ds.foldl (fun acc c => acc * 10 + (c.toNat - 48)) 0

/-- Model of JavaScript `parseInt(s)` on decimal input: skip leading
whitespace, accept an optional sign, then read the longest decimal-digit
prefix; `none` models `NaN` (no digits, including `parseInt(undefined)`
which reads the string `"undefined"`).  The hexadecimal `0x` prefix form
is not exercised by the source and is not modelled. -/
def jsParseInt (s : String) : Option Int :=
  let cs := s.toList.dropWhile
    (fun c => (c.toNat == 32) || (c.toNat == 9) || (c.toNat == 10) || (c.toNat == 13))
  match cs with
  | [] => none
  | c :: rest =>
    if c.toNat == 45 then
      let ds := rest.takeWhile Char.isDigit
      if ds.isEmpty then none else some (-(digitsToNat ds : Int))
    else if c.toNat == 43 then
      let ds := rest.takeWhile Char.isDigit
      if ds.isEmpty then none else some ((digitsToNat ds : Int))
    else
      let ds := cs.takeWhile Char.isDigit
      if ds.isEmpty then none else some ((digitsToNat ds : Int))

/-- Value returned by `verifySignature` in worker.js: a boolean on the
normal paths, but its catch block `return handleError(error, ...)` returns
a `Response` object (which is truthy to the caller). -/
inductive VerifyResult
  | result (b : Bool)
  | response (r : Response)
deriving DecidableEq, Repr

/-- Message of the `TypeError` thrown by `timeStamp.split("=")` when the
signature header does not contain the separator `", "` (so the second
element of the destructured split is `undefined`). -/
def splitThrowMessage : String := "TypeError: timeStamp is undefined"

/-- Model of `verifySignature` in worker.js.  `hmac` abstracts
HMAC-SHA256 as lowercase hex: `hmac secret message`.  `now` is
`Date.now()` in milliseconds; `secret` is `self.GHOST_WEBHOOK_SECRET`
(`none` when unset).  Mirrors the source line by line, including the
catch block that converts the split `TypeError` into a `Response`. -/
def verifySignature (hmac : String → String → String) (secret : Option String)
    (now : Int) (signatureHeader : Option String) (body : String) : VerifyResult :=
  match signatureHeader with
  | none => .result false
  | some header =>
    let parts := jsSplitCommaSpace header
    let sigHash := parts.headD ""
    match parts.get? 1 with
    | none => .response (handleError splitThrowMessage)
    | some timeStamp =>
      let hash := (jsSplitEq sigHash).get? 1
      let ts := (jsSplitEq timeStamp).get? 1
      let tsParsed := match ts with
        | some s => jsParseInt s
        | none => none
      let timeCheckFails := match tsParsed with
        | some t => decide ((now - t).natAbs > 5 * 60 * 1000)
        | none => false
      if timeCheckFails then .result false
      else
        match secret with
        | none => .result false
        | some sec =>
          if sec == "" then .result false
          else
            let tsText := match ts with
              | some s => s
              | none => "undefined"
            let message := body ++ tsText
            let computedHash := hmac sec message
            match hash with
            | some h => .result (computedHash == h)
            | none => .result false

/-- Remote calls dispatched by the worker, recorded as an event trace. -/
inductive Event
  | purgeCall
  | listCall
  | deleteCall (objectName : String)
deriving DecidableEq, Repr

/-- Outcome of a `fetch` that resolves to a response: `ok` is the 2xx flag,
`status` the HTTP status code. -/
structure FetchResult where
  ok : Bool
  status : Nat
deriving DecidableEq, Repr

/-- Model of `purgeBunnyCDNCache` in worker.js: dispatches the purge call
and throws when the response is not ok. -/
def purgeBunnyCDNCache (purge : FetchResult) : Except String Unit × List Event :=
  (if purge.ok then .ok ()
   else .error ("Failed to purge cache. Status: " ++ toString purge.status),
   [Event.purgeCall])

/-- One entry of the storage listing: `{ ObjectName: string }`. -/
structure Folder where
  ObjectName : String
deriving DecidableEq, Repr

/-- Outcome double for one per-folder DELETE `fetch`: either a resolved
response (with `ok` flag and status), or a rejected promise carrying an
error message. -/
inductive DeleteOutcome
  | response (ok : Bool) (status : Nat)
  | raised (msg : String)
deriving DecidableEq, Repr

/-- Outcome double for the folder-listing `fetch`: the response `ok` flag,
status, and the JSON payload obtained from `listResponse.json()`. -/
structure ListingResult where
  ok : Bool
  status : Nat
  folders : List Folder
deriving DecidableEq, Repr

/-- Model of `listPermaCacheFolders` in worker.js: throws on a non-ok
listing response, otherwise returns the parsed folder array. -/
def listPermaCacheFolders (listing : ListingResult) : Except String (List Folder) :=
  if listing.ok then .ok listing.folders
  else .error ("Failed to list Perma-Cache folders. Status: " ++ toString listing.status)

/-- Model of `deleteFolder` in worker.js: resolves to `true` when the
response is ok and `false` otherwise; a rejected `fetch` propagates (the
function has no try/catch of its own). -/
def deleteFolder (del : String → DeleteOutcome) (f : Folder) : Except String Bool :=
  match del f.ObjectName with
  | .response ok _ => .ok ok
  | .raised msg => .error msg

/-- Model of `Promise.all` over already-created promises: resolves to the
list of values when every promise resolves, and rejects with a rejection
reason as soon as any promise rejects (the tally is then never computed;
the sibling promises were still all created and dispatched). -/
def promiseAll : List (Except String Bool) → Except String (List Bool)
  | [] => .ok []
  | .error e :: _ => .error e
  | .ok b :: rest =>
    match promiseAll rest with
    | .error e => .error e
    | .ok bs => .ok (b :: bs)

/-- Value returned by `cleanupPermaCacheFolders` in worker.js: the summary
string on the normal path, but its catch block returns `handleError(...)`,
a `Response` object. -/
inductive CleanupResult
  | summary (s : String)
  | errorResponse (r : Response)
deriving DecidableEq, Repr

/-- Summary string built at the end of `cleanupPermaCacheFolders`. -/
def cleanupSummary (total deleted failed : Nat) : String :=
  "Cleanup completed. Total folders: " ++ toString total ++
    ", Deleted: " ++ toString deleted ++ ", Failed: " ++ toString failed

/-- Model of `cleanupPermaCacheFolders` in worker.js: list, then
`folders.map(deleteFolder)` (dispatching every delete), then
`Promise.all`, then the tally; any thrown/rejected error is caught and
converted by `handleError` into a `Response` that becomes the return
value. -/
def cleanupPermaCacheFolders (listing : ListingResult) (del : String → DeleteOutcome) :
    CleanupResult × List Event :=
  match listPermaCacheFolders listing with
  | .error e => (.errorResponse (handleError e), [Event.listCall])
  | .ok folders =>
    let events := Event.listCall :: folders.map (fun f => Event.deleteCall f.ObjectName)
    let results := folders.map (deleteFolder del)
    match promiseAll results with
    | .error e => (.errorResponse (handleError e), events)
    | .ok bs =>
      let deletedCount := (bs.filter id).length
      let failedCount := bs.length - deletedCount
      (.summary (cleanupSummary folders.length deletedCount failedCount), events)

/-- Incoming request view: method, URL path, the two consumed headers
(`none` models an absent header, i.e. `headers.get` returning `null`),
and the text body. -/
structure Request where
  method : String
  pathname : String
  manualtriggertoken : Option String
  xGhostSignature : Option String
  body : String
deriving DecidableEq, Repr

/-- JavaScript strict equality `reqToken === envToken` for the
manual-trigger comparison: `null`, `undefined` and strings are mutually
distinct, so the comparison holds exactly when both sides are present and
equal as strings. -/
def manualTokenMatches (reqToken envToken : Option String) : Bool :=
  match reqToken, envToken with
  | some a, some b => a == b
  | _, _ => false

/-- Truthiness of the value `handlePurgeFullCache` receives from
`verifySignature`: a boolean is its own truth value; a `Response` object
is truthy. -/
def jsTruthy : VerifyResult → Bool
  | .result b => b
  | .response _ => true

/-- Template-literal rendering of the cleanup result inside
`handlePurgeFullCache`: a string interpolates as itself; a `Response`
object renders as `[object Response]`. -/
def cleanupResultText : CleanupResult → String
  | .summary s => s
  | .errorResponse _ => "[object Response]"

/-- Model of `handlePurgeFullCache` in worker.js: bypass-token check,
otherwise signature verification (a falsy result yields the 403
response); then purge (whose throw propagates to the caller, hence the
`Except`), then cleanup, then the 200 success response. -/
def handlePurgeFullCache (hmac : String → String → String)
    (envToken secret : Option String) (now : Int) (req : Request)
    (purge : FetchResult) (listing : ListingResult) (del : String → DeleteOutcome) :
    Except String Response × List Event :=
  let proceed : Except String Response × List Event :=
    match purgeBunnyCDNCache purge with
    | (.error e, ev) => (.error e, ev)
    | (.ok _, ev) =>
      let res := cleanupPermaCacheFolders listing del
      (.ok ⟨HTTP_OK,
        "Full cache purge initiated successfully. Cleanup result: " ++
          cleanupResultText res.1⟩,
       ev ++ res.2)
  if manualTokenMatches req.manualtriggertoken envToken then proceed
  else
    if jsTruthy (verifySignature hmac secret now req.xGhostSignature req.body) then proceed
    else (.ok ⟨HTTP_FORBIDDEN, "Invalid signature"⟩, [])

/-- Model of `handleRequest` in worker.js: validates the environment, routes
on the URL path only, and converts any error thrown below it (missing
variable, purge failure) into a 500 via `handleError`. -/
def handleRequest (hmac : String → String → String) (env : Env) (now : Int)
    (req : Request) (purge : FetchResult) (listing : ListingResult)
    (del : String → DeleteOutcome) : Response × List Event :=
  match validateEnvironmentVariables env with
  | .error e => (handleError e, [])
  | .ok _ =>
    if req.pathname == "/purge-full-cache" then
      match handlePurgeFullCache hmac env.MANUAL_TRIGGER_TOKEN env.GHOST_WEBHOOK_SECRET
          now req purge listing del with
      | (.ok r, ev) => (r, ev)
      | (.error e, ev) => (handleError e, ev)
    else (⟨HTTP_NOT_FOUND, "Not Found"⟩, [])

/-- Legacy sequential delete loop from the repository's older worker
variant: iterates the folders in order, incrementing `deletedCount` on an
ok response and `failedCount` otherwise; a rejected `fetch` throws out of
the loop. -/
def legacyDeleteLoop (del : String → DeleteOutcome) :
    List Folder → Nat → Nat → Except String (Nat × Nat)
  | [], deletedCount, failedCount => .ok (deletedCount, failedCount)
  | f :: rest, deletedCount, failedCount =>
    match del f.ObjectName with
    | .raised msg => .error msg
    | .response ok _ =>
      if ok then legacyDeleteLoop del rest (deletedCount + 1) failedCount
      else legacyDeleteLoop del rest deletedCount (failedCount + 1)

/-- Legacy `cleanupPermaCacheFolders` from the repository's older worker
variant: same listing step and same summary format, but deletes run in a
sequential loop and the catch block returns an error string rather than a
`Response`. -/
def legacyCleanupPermaCacheFolders (listing : ListingResult)
    (del : String → DeleteOutcome) : String :=
  match listPermaCacheFolders listing with
  | .error e => "Error during cleanup: " ++ e
  | .ok folders =>
    match legacyDeleteLoop del folders 0 0 with
    | .error msg => "Error during cleanup: " ++ msg
    | .ok dc =>
      cleanupSummary folders.length dc.1 dc.2

/-- Predicate: the delete double resolves (ok or not) and the response is
ok for this folder. -/
def deleteSucceeds (del : String → DeleteOutcome) (f : Folder) : Bool :=
  match del f.ObjectName with
  | .response ok _ => ok
  | .raised _ => false

/-- Predicate: the delete double rejects (raises) for this folder. -/
def deleteRaises (del : String → DeleteOutcome) (f : Folder) : Bool :=
  match del f.ObjectName with
  | .response _ _ => false
  | .raised _ => true

lemma promiseAll_no_raise (del : String → DeleteOutcome) (folders : List Folder)
    (h : ∀ f ∈ folders, deleteRaises del f = false) :
    promiseAll (folders.map (deleteFolder del)) =
      .ok (folders.map (deleteSucceeds del)) := by
  induction folders with
  | nil => rfl
  | cons f rest ih =>
    have hf := h f (List.mem_cons_self f rest)
    have hr := ih (fun g hg => h g (List.mem_cons_of_mem f hg))
    cases hdel : del f.ObjectName with
    | response ok st =>
      simp [deleteFolder, hdel, deleteSucceeds, promiseAll, hr]
    | raised m => simp [deleteRaises, hdel] at hf

lemma promiseAll_error_of_raise (del : String → DeleteOutcome) (folders : List Folder)
    (h : ∃ f ∈ folders, deleteRaises del f = true) :
    ∃ m, promiseAll (folders.map (deleteFolder del)) = .error m := by
  induction folders with
  | nil => simp at h
  | cons f rest ih =>
    cases hdel : del f.ObjectName with
    | raised m =>
      refine ⟨m, ?_⟩
      simp only [List.map_cons, promiseAll, deleteFolder, hdel]
    | response ok st =>
      have hrest : ∃ g ∈ rest, deleteRaises del g = true := by
        rcases h with ⟨g, hg, hgr⟩
        rcases List.mem_cons.mp hg with rfl | hmem
        · simp [deleteRaises, hdel] at hgr
        · exact ⟨g, hmem, hgr⟩
      rcases ih hrest with ⟨m, hm⟩
      refine ⟨m, ?_⟩
      simp only [List.map_cons, promiseAll, deleteFolder, hdel, hm]

lemma length_filter_id_map (p : Folder → Bool) (l : List Folder) :
    ((l.map p).filter id).length = (l.filter p).length := by
  induction l with
  | nil => rfl
  | cons f rest ih => cases h : p f <;> simp [h, ih]

lemma length_filter_partition (p : Folder → Bool) (l : List Folder) :
    (l.filter p).length + (l.filter (fun f => !(p f))).length = l.length := by
  induction l with
  | nil => rfl
  | cons f rest ih =>
    cases h : p f <;> simp [h, ← ih] <;> omega

lemma legacyDeleteLoop_no_raise (del : String → DeleteOutcome) (l : List Folder)
    (d0 f0 : Nat) (h : ∀ f ∈ l, deleteRaises del f = false) :
    legacyDeleteLoop del l d0 f0 =
      .ok (d0 + (l.filter (deleteSucceeds del)).length,
           f0 + (l.filter (fun f => !(deleteSucceeds del f))).length) := by
  induction l generalizing d0 f0 with
  | nil => simp [legacyDeleteLoop]
  | cons f rest ih =>
    have hf := h f (List.mem_cons_self f rest)
    cases hdel : del f.ObjectName with
    | raised m => simp [deleteRaises, hdel] at hf
    | response ok st =>
      have hsucc : deleteSucceeds del f = ok := by simp [deleteSucceeds, hdel]
      cases ok with
      | true =>
        simp only [legacyDeleteLoop, hdel, if_pos rfl]
        rw [ih (d0 + 1) f0 (fun g hg => h g (List.mem_cons_of_mem f hg))]
        simp [List.filter_cons, hsucc]
        omega
      | false =>
        simp only [legacyDeleteLoop, hdel, Bool.false_eq_true, if_false]
        rw [ih d0 (f0 + 1) (fun g hg => h g (List.mem_cons_of_mem f hg))]
        simp [List.filter_cons, hsucc]
        omega

lemma cleanup_summary_of_no_raise (listing : ListingResult)
    (del : String → DeleteOutcome) (hok : listing.ok = true)
    (hnoraise : ∀ f ∈ listing.folders, deleteRaises del f = false) :
    (cleanupPermaCacheFolders listing del).1 =
      .summary (cleanupSummary listing.folders.length
        (listing.folders.filter (deleteSucceeds del)).length
        (listing.folders.length -
          (listing.folders.filter (deleteSucceeds del)).length)) := by
  simp only [cleanupPermaCacheFolders, listPermaCacheFolders, hok, if_pos,
    promiseAll_no_raise del listing.folders hnoraise]
  simp [length_filter_id_map]

/-- Boolean test of whether a cleanup run produced the tally summary. -/
def isSummary : CleanupResult → Bool
  | .summary _ => true
  | .errorResponse _ => false

/-- Concrete environment with all required variables bound. -/
def envAll : Env :=
  ⟨some "webhooksecret", some "pzid", some "apikey", some "storagehost",
   some "zonename", some "zonepw", some "tok"⟩

/-- Concrete environment with `MANUAL_TRIGGER_TOKEN` unbound. -/
def envMissingToken : Env :=
  ⟨some "webhooksecret", some "pzid", some "apikey", some "storagehost",
   some "zonename", some "zonepw", none⟩

/-- Concrete HMAC double that returns the fixed digest `00`. -/
def hmacConst : String → String → String := fun _ _ => "00"

/-- Delete double where every DELETE resolves ok. -/
def delAllOk : String → DeleteOutcome := fun _ => .response true 200

/-- Delete double where folder `b` gets a 404 and the rest succeed. -/
def delMixed : String → DeleteOutcome :=
  fun n => if n == "b" then .response false 404 else .response true 200

/-- Delete double where the DELETE for folder `a` rejects. -/
def delRaisesA : String → DeleteOutcome :=
  fun n => if n == "a" then .raised "network failure" else .response true 200

/-- Concrete successful listing of three folders. -/
def listingABC : ListingResult := ⟨true, 200, [⟨"a"⟩, ⟨"b"⟩, ⟨"c"⟩]⟩

/-- Concrete successful listing of two folders. -/
def listingAB : ListingResult := ⟨true, 200, [⟨"a"⟩, ⟨"b"⟩]⟩

/-- Concrete failed listing response. -/
def listingFail503 : ListingResult := ⟨false, 503, []⟩

/-- Concrete request carrying the correct bypass token and no signature. -/
def reqBypass : Request := ⟨"POST", "/purge-full-cache", some "tok", none, "body"⟩

/-- Concrete request carrying the correct bypass token and a malformed
signature header. -/
def reqBypassBadSig : Request :=
  ⟨"GET", "/purge-full-cache", some "tok", some "sha256=zzz", "body"⟩

/-- Concrete request with a signature header lacking the `", "` separator
and no bypass token. -/
def reqMalformedSig : Request :=
  ⟨"POST", "/purge-full-cache", none, some "sha256=abc", "body"⟩

/-- Concrete request to a path other than `/purge-full-cache`. -/
def reqOtherPath : Request := ⟨"GET", "/nope", none, none, ""⟩

/-- Concrete request with a well-formed signature header whose timestamp 0
is stale relative to the server time used in the replay witness. -/
def reqStaleSig : Request :=
  ⟨"POST", "/purge-full-cache", none, some "sha256=00, t=0", "body"⟩

/-- Claim C4: for every listed set of N folders whose deletions all settle (K of
them with a non-ok response, the rest ok), the cleanup pass returns the
tally summary with `total = N`, `deleted` = number of ok deletions and
`failed` = number of non-ok deletions; these satisfy `deleted + failed =
total`; and the three numbers are invariant under any permutation of the
listed folders (completion order is immaterial). -/
theorem worker_cleanup_tally_invariant (listing : ListingResult)
    (del : String → DeleteOutcome) (hok : listing.ok = true)
    (hnoraise : ∀ f ∈ listing.folders, deleteRaises del f = false) :
    ((cleanupPermaCacheFolders listing del).1 =
      .summary (cleanupSummary listing.folders.length
        ((listing.folders.filter (deleteSucceeds del)).length)
        ((listing.folders.filter (fun f => !(deleteSucceeds del f))).length))) ∧
    ((listing.folders.filter (deleteSucceeds del)).length +
      (listing.folders.filter (fun f => !(deleteSucceeds del f))).length =
        listing.folders.length) ∧
    (∀ listing2 : ListingResult, listing2.ok = true →
      listing2.folders.Perm listing.folders →
      (cleanupPermaCacheFolders listing2 del).1 =
        .summary (cleanupSummary listing.folders.length
          ((listing.folders.filter (deleteSucceeds del)).length)
          ((listing.folders.filter (fun f => !(deleteSucceeds del f))).length))) := by
  have hpart := length_filter_partition (deleteSucceeds del) listing.folders
  have hsub : listing.folders.length -
      (listing.folders.filter (deleteSucceeds del)).length =
      (listing.folders.filter (fun f => !(deleteSucceeds del f))).length := by
    omega
  refine ⟨?_, hpart, ?_⟩
  · rw [cleanup_summary_of_no_raise listing del hok hnoraise, hsub]
  · intro listing2 hok2 hperm
    have hnor2 : ∀ f ∈ listing2.folders, deleteRaises del f = false :=
      fun f hf => hnoraise f (hperm.mem_iff.mp hf)
    rw [cleanup_summary_of_no_raise listing2 del hok2 hnor2]
    have hlen : listing2.folders.length = listing.folders.length := hperm.length_eq
    have hfil : (listing2.folders.filter (deleteSucceeds del)).length =
        (listing.folders.filter (deleteSucceeds del)).length :=
      (hperm.filter (deleteSucceeds del)).length_eq
    rw [hlen, hfil, hsub]

/-- Witness for C4 on a concrete run: three folders, one failing delete. -/
theorem worker_cleanup_tally_invariant_witness :
    (cleanupPermaCacheFolders listingABC delMixed).1 =
      .summary "Cleanup completed. Total folders: 3, Deleted: 2, Failed: 1" := by
  have h := (worker_cleanup_tally_invariant listingABC delMixed (by decide) (by decide)).1
  exact h.trans (by decide)

/-- Claim C10: whenever the listing succeeds and no delete call raises (each
returns a plain ok / non-ok response), the current concurrent cleanup and
the legacy sequential cleanup loop produce the identical tally string. -/
theorem worker_cleanup_refines_legacy (listing : ListingResult)
    (del : String → DeleteOutcome) (hok : listing.ok = true)
    (hnoraise : ∀ f ∈ listing.folders, deleteRaises del f = false) :
    (cleanupPermaCacheFolders listing del).1 =
      .summary (legacyCleanupPermaCacheFolders listing del) := by
  have hlist : listPermaCacheFolders listing = .ok listing.folders := by
    simp [listPermaCacheFolders, hok]
  have hsub : listing.folders.length -
      (listing.folders.filter (deleteSucceeds del)).length =
      (listing.folders.filter (fun f => !(deleteSucceeds del f))).length := by
    have := length_filter_partition (deleteSucceeds del) listing.folders
    omega
  rw [cleanup_summary_of_no_raise listing del hok hnoraise]
  simp only [legacyCleanupPermaCacheFolders, hlist,
    legacyDeleteLoop_no_raise del listing.folders 0 0 hnoraise, Nat.zero_add, hsub]

/-- Witness for C10 on a concrete run: three folders, one failing delete. -/
theorem worker_cleanup_refines_legacy_witness :
    (cleanupPermaCacheFolders listingABC delMixed).1 =
      .summary (legacyCleanupPermaCacheFolders listingABC delMixed) :=
  worker_cleanup_refines_legacy listingABC delMixed (by decide) (by decide)

/-- Claim C2 counterexample: with two listed folders where the delete of `a`
raises and the delete of `b` succeeds, the cleanup run does NOT produce
the tally the claim requires (total 2, deleted 1, failed 1); instead the
rejection is rethrown to the catch block, which converts it into an error
`Response`. -/
theorem worker_delete_raise_not_counted :
    (cleanupPermaCacheFolders listingAB delRaisesA).1 =
      .errorResponse (handleError "network failure") ∧
    (cleanupPermaCacheFolders listingAB delRaisesA).1 ≠
      .summary (cleanupSummary 2 1 1) :=
  ⟨by decide, by decide⟩

/-- Claim C2 amended: a deletion whose underlying call raises is NOT counted as
failed — the rejection makes `Promise.all` reject and the catch block
returns an error `Response` instead of any tally; the sibling deletions
are still all dispatched (the `map` creates every request before the
join), but the engine does not wait for them to settle and no tally is
produced.  Only deletions that settle with a non-ok response are counted
as failed. -/
theorem worker_delete_raise_aborts_tally (listing : ListingResult)
    (del : String → DeleteOutcome) (hok : listing.ok = true)
    (hraise : ∃ f ∈ listing.folders, deleteRaises del f = true) :
    (∃ m, cleanupPermaCacheFolders listing del =
      (.errorResponse (handleError m),
       Event.listCall :: listing.folders.map (fun f => Event.deleteCall f.ObjectName))) ∧
    isSummary (cleanupPermaCacheFolders listing del).1 = false := by
  have hlist : listPermaCacheFolders listing = .ok listing.folders := by
    simp [listPermaCacheFolders, hok]
  rcases promiseAll_error_of_raise del listing.folders hraise with ⟨m, hm⟩
  have hrun : cleanupPermaCacheFolders listing del =
      (.errorResponse (handleError m),
       Event.listCall :: listing.folders.map (fun f => Event.deleteCall f.ObjectName)) := by
    simp only [cleanupPermaCacheFolders, hlist, hm]
  exact ⟨⟨m, hrun⟩, by rw [hrun]; rfl⟩

/-- Witness for the amended C2 on a concrete run. -/
theorem worker_delete_raise_aborts_tally_witness :
    isSummary (cleanupPermaCacheFolders listingAB delRaisesA).1 = false :=
  (worker_delete_raise_aborts_tally listingAB delRaisesA (by decide) (by decide)).2

/-- Claim C1 (evaluation at the failing input): for a signature header that
lacks the `", "` separator, `verifySignature` does not return false — its
catch block returns the `Response` produced by `handleError`, which is
truthy, so the handler treats the signature as valid: the response status
is not 403 and the purge CDN call IS dispatched. -/
theorem worker_malformed_signature_bypasses_auth :
    verifySignature hmacConst (some "webhooksecret") 0 (some "sha256=abc") "body" =
      .response (handleError splitThrowMessage) ∧
    jsTruthy (verifySignature hmacConst (some "webhooksecret") 0
      (some "sha256=abc") "body") = true ∧
    (handleRequest hmacConst envAll 0 reqMalformedSig ⟨true, 200⟩ ⟨true, 200, []⟩
      delAllOk).1.status ≠ HTTP_FORBIDDEN ∧
    Event.purgeCall ∈ (handleRequest hmacConst envAll 0 reqMalformedSig ⟨true, 200⟩
      ⟨true, 200, []⟩ delAllOk).2 :=
  ⟨by decide, by decide, by decide, by decide⟩

/-- Claim C3 counterexample: with a valid configuration, an authorized request,
a successful purge and a listing call answering 503, the client receives
status 200 — not the 500 the claim requires. -/
theorem worker_listing_failure_yields_200 :
    (handleRequest hmacConst envAll 0 reqBypass ⟨true, 200⟩ listingFail503
      delAllOk).1.status = HTTP_OK ∧
    (handleRequest hmacConst envAll 0 reqBypass ⟨true, 200⟩ listingFail503
      delAllOk).1.status ≠ HTTP_SERVER_ERROR :=
  ⟨by decide, by decide⟩

/-- Claim C3 amended: if the folder listing call returns a non-success response,
no delete calls are issued and no tally is produced, but the error is not
fatal to the request: the catch block inside the cleanup function converts
it into an error `Response` object, which the handler interpolates into a
200 success body (rendered `[object Response]`). -/
theorem worker_listing_failure_amended (hmac : String → String → String)
    (env : Env) (now : Int) (req : Request) (purge : FetchResult)
    (listing : ListingResult) (del : String → DeleteOutcome) (t : String)
    (henv : validateEnvironmentVariables env = .ok ())
    (hpath : req.pathname = "/purge-full-cache")
    (htok : req.manualtriggertoken = some t)
    (henvtok : env.MANUAL_TRIGGER_TOKEN = some t)
    (hpurge : purge.ok = true) (hlist : listing.ok = false) :
    handleRequest hmac env now req purge listing del =
      (⟨HTTP_OK,
        "Full cache purge initiated successfully. Cleanup result: [object Response]"⟩,
       [Event.purgeCall, Event.listCall]) := by
  simp [handleRequest, henv, hpath, handlePurgeFullCache, manualTokenMatches, htok,
    henvtok, purgeBunnyCDNCache, hpurge, cleanupPermaCacheFolders,
    listPermaCacheFolders, hlist, cleanupResultText]

/-- Witness for the amended C3 on a concrete run. -/
theorem worker_listing_failure_amended_witness :
    handleRequest hmacConst envAll 0 reqBypass ⟨true, 200⟩ listingFail503 delAllOk =
      (⟨HTTP_OK,
        "Full cache purge initiated successfully. Cleanup result: [object Response]"⟩,
       [Event.purgeCall, Event.listCall]) :=
  worker_listing_failure_amended hmacConst envAll 0 reqBypass ⟨true, 200⟩
    listingFail503 delAllOk "tok" rfl rfl rfl rfl rfl rfl

/-- Claim C5: when an authorized request reaches the purge step and the purge
response is not ok, the thrown error surfaces as a 500 via `handleError`,
the only dispatched CDN call is the purge itself, and the result does not
depend on the listing or delete doubles — the cleanup engine is never
invoked. -/
theorem worker_purge_failure_skips_cleanup (hmac : String → String → String)
    (env : Env) (now : Int) (req : Request) (purge : FetchResult)
    (listing : ListingResult) (del : String → DeleteOutcome)
    (henv : validateEnvironmentVariables env = .ok ())
    (hpath : req.pathname = "/purge-full-cache")
    (hauth : manualTokenMatches req.manualtriggertoken env.MANUAL_TRIGGER_TOKEN = true ∨
      jsTruthy (verifySignature hmac env.GHOST_WEBHOOK_SECRET now
        req.xGhostSignature req.body) = true)
    (hfail : purge.ok = false) :
    handleRequest hmac env now req purge listing del =
      (handleError ("Failed to purge cache. Status: " ++ toString purge.status),
       [Event.purgeCall]) := by
  by_cases htm : manualTokenMatches req.manualtriggertoken env.MANUAL_TRIGGER_TOKEN = true
  · simp [handleRequest, henv, hpath, handlePurgeFullCache, htm,
      purgeBunnyCDNCache, hfail]
  · have hver := hauth.resolve_left htm
    rw [Bool.not_eq_true] at htm
    simp [handleRequest, henv, hpath, handlePurgeFullCache, htm, hver,
      purgeBunnyCDNCache, hfail]

/-- Witness for C5 on a concrete run: purge answers 503 while a non-empty
listing is available, yet only the purge call is dispatched. -/
theorem worker_purge_failure_skips_cleanup_witness :
    handleRequest hmacConst envAll 0 reqBypass ⟨false, 503⟩ ⟨true, 200, [⟨"a"⟩]⟩
      delAllOk =
      (handleError ("Failed to purge cache. Status: " ++ toString (503 : Nat)),
       [Event.purgeCall]) :=
  worker_purge_failure_skips_cleanup hmacConst envAll 0 reqBypass ⟨false, 503⟩
    ⟨true, 200, [⟨"a"⟩]⟩ delAllOk rfl rfl (Or.inl (by decide)) rfl

/-- Claim C6: when the signature header parses to a hash part and a timestamp
part whose `parseInt` value differs from the current time by more than
five minutes in either direction, verification returns false — whatever
the provided hash is, including the correct HMAC for that body and
timestamp — and the request is denied with 403 before any CDN call. -/
theorem worker_replay_window_rejects (hmac : String → String → String)
    (env : Env) (now t : Int) (req : Request) (purge : FetchResult)
    (listing : ListingResult) (del : String → DeleteOutcome)
    (header tsPart tsStr : String)
    (henv : validateEnvironmentVariables env = .ok ())
    (hpath : req.pathname = "/purge-full-cache")
    (htok : manualTokenMatches req.manualtriggertoken env.MANUAL_TRIGGER_TOKEN = false)
    (hsig : req.xGhostSignature = some header)
    (hsplit : (jsSplitCommaSpace header).get? 1 = some tsPart)
    (hts : (jsSplitEq tsPart).get? 1 = some tsStr)
    (hparse : jsParseInt tsStr = some t)
    (hwindow : (now - t).natAbs > 5 * 60 * 1000) :
    verifySignature hmac env.GHOST_WEBHOOK_SECRET now req.xGhostSignature req.body =
      .result false ∧
    handleRequest hmac env now req purge listing del =
      (⟨HTTP_FORBIDDEN, "Invalid signature"⟩, []) := by
  have hver : verifySignature hmac env.GHOST_WEBHOOK_SECRET now
      req.xGhostSignature req.body = .result false := by
    rw [hsig]
    simp only [verifySignature, hsplit, hts, hparse]
    simp [hwindow]
  refine ⟨hver, ?_⟩
  simp [handleRequest, henv, hpath, handlePurgeFullCache, htok, hver, jsTruthy]

/-- Witness for C6 on a concrete run: the provided hash `00` IS the digest
computed by the HMAC double, yet the stale timestamp makes verification
fail and the request is denied. -/
theorem worker_replay_window_rejects_witness :
    verifySignature hmacConst envAll.GHOST_WEBHOOK_SECRET 1000000
      reqStaleSig.xGhostSignature reqStaleSig.body = .result false ∧
    handleRequest hmacConst envAll 1000000 reqStaleSig ⟨true, 200⟩ ⟨true, 200, []⟩
      delAllOk = (⟨HTTP_FORBIDDEN, "Invalid signature"⟩, []) :=
  worker_replay_window_rejects hmacConst envAll 1000000 0 reqStaleSig ⟨true, 200⟩
    ⟨true, 200, []⟩ delAllOk "sha256=00, t=0" "t=0" "0" rfl rfl (by decide)
    rfl (by decide) (by decide) (by decide) (by decide)

/-- Claim C7: a request whose `manualtriggertoken` header equals the configured
bypass token is allowed regardless of the signature header — the result is
literally independent of `X-Ghost-Signature`, the purge call is
dispatched, and the status is never 403. -/
theorem worker_bypass_token_allows (hmac : String → String → String)
    (env : Env) (now : Int) (req : Request) (purge : FetchResult)
    (listing : ListingResult) (del : String → DeleteOutcome) (t : String)
    (henv : validateEnvironmentVariables env = .ok ())
    (hpath : req.pathname = "/purge-full-cache")
    (htok : req.manualtriggertoken = some t)
    (henvtok : env.MANUAL_TRIGGER_TOKEN = some t) :
    (∀ sig : Option String,
      handleRequest hmac env now { req with xGhostSignature := sig } purge listing del =
        handleRequest hmac env now req purge listing del) ∧
    Event.purgeCall ∈ (handleRequest hmac env now req purge listing del).2 ∧
    (handleRequest hmac env now req purge listing del).1.status ≠ HTTP_FORBIDDEN := by
  have htm : manualTokenMatches req.manualtriggertoken env.MANUAL_TRIGGER_TOKEN = true := by
    simp [manualTokenMatches, htok, henvtok]
  refine ⟨?_, ?_⟩
  · intro sig
    simp [handleRequest, henv, hpath, handlePurgeFullCache, manualTokenMatches,
      htok, henvtok]
  · cases hpok : purge.ok with
    | false =>
      have h := worker_purge_failure_skips_cleanup hmac env now req purge listing del
        henv hpath (Or.inl htm) hpok
      rw [h]
      exact ⟨by simp, by simp [handleError, HTTP_SERVER_ERROR, HTTP_FORBIDDEN]⟩
    | true =>
      constructor
      · simp [handleRequest, henv, hpath, handlePurgeFullCache, htm,
          purgeBunnyCDNCache, hpok]
      · simp [handleRequest, henv, hpath, handlePurgeFullCache, htm,
          purgeBunnyCDNCache, hpok, HTTP_OK, HTTP_FORBIDDEN]

/-- Witness for C7 on a concrete run: correct bypass token together with a
malformed signature header still reaches the purge call. -/
theorem worker_bypass_token_allows_witness :
    Event.purgeCall ∈ (handleRequest hmacConst envAll 0 reqBypassBadSig ⟨true, 200⟩
      ⟨true, 200, []⟩ delAllOk).2 :=
  (worker_bypass_token_allows hmacConst envAll 0 reqBypassBadSig ⟨true, 200⟩
    ⟨true, 200, []⟩ delAllOk "tok" rfl rfl rfl rfl).2.1

/-- Helper: whenever one of the seven required variables is absent, the
validation step fails with some message. -/
lemma validateEnv_error_of_missing (env : Env)
    (hmiss : env.GHOST_WEBHOOK_SECRET = none ∨ env.BUNNY_PULLZONE_ID = none ∨
      env.BUNNY_API_KEY = none ∨ env.BUNNY_STORAGE_ZONE_HOSTNAME = none ∨
      env.BUNNY_STORAGE_ZONE_NAME = none ∨ env.BUNNY_STORAGE_ZONE_PASSWORD = none ∨
      env.MANUAL_TRIGGER_TOKEN = none) :
    ∃ m, validateEnvironmentVariables env = .error m := by
  unfold validateEnvironmentVariables
  split_ifs with h1 h2 h3 h4 h5 h6 h7
  case pos => exact ⟨_, rfl⟩
  case pos => exact ⟨_, rfl⟩
  case pos => exact ⟨_, rfl⟩
  case pos => exact ⟨_, rfl⟩
  case pos => exact ⟨_, rfl⟩
  case pos => exact ⟨_, rfl⟩
  case pos => exact ⟨_, rfl⟩
  case neg =>
    exfalso
    rcases hmiss with h | h | h | h | h | h | h <;> simp_all

/-- Claim C8: if any of the seven required configuration values is absent, the
handler answers 500 for every request, with an empty event trace — no
remote CDN call is attempted. -/
theorem worker_missing_env_fails_closed (hmac : String → String → String)
    (env : Env) (now : Int) (req : Request) (purge : FetchResult)
    (listing : ListingResult) (del : String → DeleteOutcome)
    (hmiss : env.GHOST_WEBHOOK_SECRET = none ∨ env.BUNNY_PULLZONE_ID = none ∨
      env.BUNNY_API_KEY = none ∨ env.BUNNY_STORAGE_ZONE_HOSTNAME = none ∨
      env.BUNNY_STORAGE_ZONE_NAME = none ∨ env.BUNNY_STORAGE_ZONE_PASSWORD = none ∨
      env.MANUAL_TRIGGER_TOKEN = none) :
    (handleRequest hmac env now req purge listing del).1.status = HTTP_SERVER_ERROR ∧
    (handleRequest hmac env now req purge listing del).2 = [] := by
  rcases validateEnv_error_of_missing env hmiss with ⟨m, hm⟩
  constructor <;> simp [handleRequest, hm, handleError]

/-- Witness for C8 on a concrete run with `MANUAL_TRIGGER_TOKEN` unbound. -/
theorem worker_missing_env_fails_closed_witness :
    (handleRequest hmacConst envMissingToken 0 reqBypass ⟨true, 200⟩ ⟨true, 200, []⟩
      delAllOk).1.status = HTTP_SERVER_ERROR ∧
    (handleRequest hmacConst envMissingToken 0 reqBypass ⟨true, 200⟩ ⟨true, 200, []⟩
      delAllOk).2 = [] :=
  worker_missing_env_fails_closed hmacConst envMissingToken 0 reqBypass ⟨true, 200⟩
    ⟨true, 200, []⟩ delAllOk (Or.inr (Or.inr (Or.inr (Or.inr (Or.inr (Or.inr rfl))))))

/-- Claim C9 counterexample: a request to a path other than `/purge-full-cache`
does not always get 404 `Not Found` — with a required environment variable
unbound, the handler answers 500 before routing. -/
theorem worker_routing_404_requires_env :
    (handleRequest hmacConst envMissingToken 0 reqOtherPath ⟨true, 200⟩ ⟨true, 200, []⟩
      delAllOk).1 ≠ ⟨HTTP_NOT_FOUND, "Not Found"⟩ ∧
    (handleRequest hmacConst envMissingToken 0 reqOtherPath ⟨true, 200⟩ ⟨true, 200, []⟩
      delAllOk).1.status = HTTP_SERVER_ERROR :=
  ⟨by decide, by decide⟩

/-- Claim C9 amended: routing never reads the HTTP method — the handler result is
literally invariant under changing it — and, provided all required
environment variables are present, every request to a path other than
`/purge-full-cache` gets 404 with body `Not Found` and no CDN call. -/
theorem worker_routing_depends_only_on_path (hmac : String → String → String)
    (env : Env) (now : Int) (req : Request) (purge : FetchResult)
    (listing : ListingResult) (del : String → DeleteOutcome) :
    (∀ m : String,
      handleRequest hmac env now { req with method := m } purge listing del =
        handleRequest hmac env now req purge listing del) ∧
    (validateEnvironmentVariables env = .ok () → req.pathname ≠ "/purge-full-cache" →
      handleRequest hmac env now req purge listing del =
        (⟨HTTP_NOT_FOUND, "Not Found"⟩, [])) := by
  constructor
  · intro m
    rfl
  · intro henv hpath
    have hbeq : (req.pathname == "/purge-full-cache") = false := by
      simp [hpath]
    simp [handleRequest, henv, hbeq]

/-- Witness for the amended C9 on a concrete run. -/
theorem worker_routing_depends_only_on_path_witness :
    handleRequest hmacConst envAll 0 reqOtherPath ⟨true, 200⟩ ⟨true, 200, []⟩
      delAllOk = (⟨HTTP_NOT_FOUND, "Not Found"⟩, []) :=
  (worker_routing_depends_only_on_path hmacConst envAll 0 reqOtherPath ⟨true, 200⟩
    ⟨true, 200, []⟩ delAllOk).2 rfl (by decide)

end GhostWorker
